import Mathlib

/-!
Shallow embedding of the `MockActiveRecallAPI` mock data service of the
recall-gpt frontend (source: `src/frontend/README.md`, the embedded
`mockData.js`).  JavaScript strings are modelled as Lean `String`
(`toLowerCase` as `String.toLower`, `trim` as `String.trim`,
`split(' ')` as `String.splitOn " "`, `includes` as `strIncludes` below),
JavaScript numbers as `ℚ` (the arithmetic the service performs on them is
exact on the inputs the claims range over), and timestamps
(`Date.getTime()`, milliseconds since the epoch) as `ℤ`.
-/

unseal Rat.mul Rat.inv Rat.add Rat.sub Rat.ofScientific

set_option maxRecDepth 40000

namespace RecallGPT

/-- Does the first list start with the second?  (Helper for `strIncludes`.) -/
def leadsWith : List Char → List Char → Bool
  | _, [] => true
  | [], _ :: _ => false
  | a :: as, b :: bs => a == b && leadsWith as bs

/-- Does the first list contain the second as a contiguous subsequence? -/
def containsSeq : List Char → List Char → Bool
  | [], t => leadsWith [] t
  | a :: as, t => leadsWith (a :: as) t || containsSeq as t

/-- Model of JavaScript `s.includes(t)`: `t` occurs as a substring of `s`
(the empty string is a substring of every string). -/
def strIncludes (s t : String) : Bool :=
  containsSeq s.data t.data

/-- Model of JavaScript `s.toLowerCase()` (ASCII, which covers the
fixture data). -/
def toLowerStr (s : String) : String :=
  ⟨s.data.map Char.toLower⟩

/-- Model of JavaScript `s.trim()`: strip leading and trailing
whitespace. -/
def trimStr (s : String) : String :=
  ⟨((s.data.dropWhile Char.isWhitespace).reverse.dropWhile Char.isWhitespace).reverse⟩

/-- `s.toLowerCase().trim()`, the normalisation `submitQuestionResponse`
applies to the user answer and the correct answer. -/
def normalizeAns (s : String) : String :=
  trimStr (toLowerStr s)

/-- Helper for `splitSpaceStr`: split a character list at every space,
keeping empty pieces, as JavaScript `split(' ')` does. -/
def splitSpaceAux : List Char → List Char → List (List Char)
  | [], acc => [acc.reverse]
  | c :: cs, acc => if c == ' ' then acc.reverse :: splitSpaceAux cs [] else splitSpaceAux cs (c :: acc)

/-- Model of JavaScript `s.split(' ')`. -/
def splitSpaceStr (s : String) : List String :=
  (splitSpaceAux s.data []).map String.mk

/-- Model of JavaScript `Math.min` on the (exact) number model. -/
def jsMin (a b : ℚ) : ℚ :=
  if a ≤ b then a else b

/-- Model of JavaScript `Math.max` on the (exact) number model. -/
def jsMax (a b : ℚ) : ℚ :=
  if a ≤ b then b else a

/-- Model of JavaScript `Math.round`: round to the nearest integer,
halves toward positive infinity. -/
def jsRound (x : ℚ) : ℤ :=
  (x + 1/2).floor

/-- The question type tag. -/
inductive QType where
  | MULTIPLE_CHOICE
  | TRUE_FALSE
  | FILL_IN_BLANK
  | SHORT_ANSWER
deriving DecidableEq, Repr

/-- One entry of a multiple-choice question's `options` list. -/
structure QOption where
  text : String
  isCorrect : Bool
deriving DecidableEq, Repr

/-- A question fixture (`SAMPLE_QUESTIONS` entries). -/
structure Question where
  id : String
  materialId : String
  type : QType
  difficulty : String
  text : String
  options : List QOption
  correctAnswer : String
  explanation : String
  context : String
deriving DecidableEq, Repr

/-- A learning-material fixture (`SAMPLE_LEARNING_MATERIALS` entries). -/
structure Material where
  id : String
  title : String
  description : String
  content : String
  difficulty : String
  estimatedDuration : ℕ
  tags : List String
deriving DecidableEq, Repr

def q1 : Question :=
  { id := "q1"
    materialId := "material_1"
    type := .MULTIPLE_CHOICE
    difficulty := "BEGINNER"
    text := "Which of the following is NOT a programming paradigm supported by JavaScript?"
    options := [⟨"Object-oriented", false⟩, ⟨"Functional", false⟩,
                ⟨"Procedural", false⟩, ⟨"Assembly-based", true⟩]
    correctAnswer := "Assembly-based"
    explanation := "JavaScript supports object-oriented, functional, and procedural programming paradigms, but not assembly-based programming."
    context := "JavaScript programming paradigms" }

def q2 : Question :=
  { id := "q2"
    materialId := "material_1"
    type := .TRUE_FALSE
    difficulty := "BEGINNER"
    text := "JavaScript can only run in web browsers."
    options := []
    correctAnswer := "false"
    explanation := "JavaScript can run in browsers and also on servers using Node.js, making it a versatile language for both frontend and backend development."
    context := "JavaScript runtime environments" }

def q3 : Question :=
  { id := "q3"
    materialId := "material_1"
    type := .FILL_IN_BLANK
    difficulty := "BEGINNER"
    text := "JavaScript supports ________, functional, and procedural programming paradigms."
    options := []
    correctAnswer := "object-oriented"
    explanation := "JavaScript is a multi-paradigm language that supports object-oriented programming along with functional and procedural approaches."
    context := "JavaScript programming paradigms" }

def q4 : Question :=
  { id := "q4"
    materialId := "material_2"
    type := .MULTIPLE_CHOICE
    difficulty := "INTERMEDIATE"
    text := "Which hook is used for memoizing functions in React?"
    options := [⟨"useState", false⟩, ⟨"useEffect", false⟩,
                ⟨"useCallback", true⟩, ⟨"useMemo", false⟩]
    correctAnswer := "useCallback"
    explanation := "useCallback is used to memoize functions, while useMemo is used to memoize values. This helps optimize performance by preventing unnecessary re-renders."
    context := "React Hooks optimization" }

def q5 : Question :=
  { id := "q5"
    materialId := "material_2"
    type := .SHORT_ANSWER
    difficulty := "INTERMEDIATE"
    text := "Explain the purpose of custom hooks in React and provide an example use case."
    options := []
    correctAnswer := "Custom hooks allow you to extract component logic into reusable functions that can be shared across multiple components."
    explanation := "Custom hooks enable code reuse and separation of concerns. For example, a useLocalStorage hook could manage localStorage operations across different components."
    context := "React custom hooks" }

def q6 : Question :=
  { id := "q6"
    materialId := "material_3"
    type := .MULTIPLE_CHOICE
    difficulty := "ADVANCED"
    text := "Which ACID property ensures that database transactions are processed reliably?"
    options := [⟨"Atomicity", false⟩, ⟨"Consistency", false⟩,
                ⟨"Isolation", false⟩, ⟨"All of the above", true⟩]
    correctAnswer := "All of the above"
    explanation := "All ACID properties work together to ensure reliable transaction processing: Atomicity (all-or-nothing), Consistency (valid state), Isolation (concurrent transactions), and Durability (permanent changes)."
    context := "Database ACID properties" }

/-- The `SAMPLE_QUESTIONS` fixture list. -/
def SAMPLE_QUESTIONS : List Question := [q1, q2, q3, q4, q5, q6]

def material1 : Material :=
  { id := "material_1"
    title := "Introduction to JavaScript"
    description := "Fundamental concepts of JavaScript programming"
    content := "JavaScript is a versatile programming language primarily used for web development.\nIt supports object-oriented, functional, and procedural programming paradigms.\nKey concepts include variables, functions, objects, arrays, and closures.\nJavaScript runs in browsers and also on servers using Node.js."
    difficulty := "BEGINNER"
    estimatedDuration := 45
    tags := ["javascript", "programming", "web-development"] }

def material2 : Material :=
  { id := "material_2"
    title := "React Hooks Fundamentals"
    description := "Understanding React Hooks and their usage"
    content := "React Hooks are functions that let you use state and other React features in functional components.\nCommon hooks include useState for state management, useEffect for side effects,\nuseCallback for memoizing functions, and useMemo for memoizing values.\nCustom hooks allow you to extract component logic into reusable functions."
    difficulty := "INTERMEDIATE"
    estimatedDuration := 60
    tags := ["react", "hooks", "frontend"] }

def material3 : Material :=
  { id := "material_3"
    title := "Database Design Principles"
    description := "Core principles of relational database design"
    content := "Database design involves organizing data efficiently and ensuring data integrity.\nNormalization reduces redundancy by dividing data into related tables.\nPrimary keys uniquely identify records, while foreign keys establish relationships.\nACID properties ensure database transactions are reliable and consistent."
    difficulty := "ADVANCED"
    estimatedDuration := 90
    tags := ["database", "sql", "design"] }

/-- The `SAMPLE_LEARNING_MATERIALS` fixture list. -/
def SAMPLE_LEARNING_MATERIALS : List Material := [material1, material2, material3]

/-- A review-schedule fixture entry (`SAMPLE_USER_SCHEDULE`).  ISO date
strings are modelled as their epoch-millisecond values. -/
structure Schedule where
  id : String
  userId : String
  materialId : String
  questionId : String
  scheduledDate : ℤ
  reviewCount : ℕ
  difficulty : ℚ
  lastReviewed : Option ℤ
  nextReview : ℤ
  status : String
deriving DecidableEq, Repr

/-- The `SAMPLE_USER_SCHEDULE` fixture list.  The JavaScript module
evaluates `new Date()` / `Date.now()` at load time; `loadMs` is that
load-time clock value in epoch milliseconds. -/
def SAMPLE_USER_SCHEDULE (loadMs : ℤ) : List Schedule :=
  [ { id := "schedule_1", userId := "user_1", materialId := "material_1",
      questionId := "q1", scheduledDate := loadMs, reviewCount := 0,
      difficulty := 2.5, lastReviewed := none, nextReview := loadMs,
      status := "DUE" },
    { id := "schedule_2", userId := "user_1", materialId := "material_1",
      questionId := "q2", scheduledDate := loadMs + 86400000, reviewCount := 1,
      difficulty := 2.0, lastReviewed := some (loadMs - 86400000),
      nextReview := loadMs + 86400000, status := "SCHEDULED" },
    { id := "schedule_3", userId := "user_1", materialId := "material_2",
      questionId := "q4", scheduledDate := loadMs, reviewCount := 0,
      difficulty := 3.0, lastReviewed := none, nextReview := loadMs,
      status := "DUE" } ]

/-- A `total`/`correct`/`incorrect` breakdown entry of the analytics fixture. -/
structure Breakdown where
  total : ℕ
  correct : ℕ
  incorrect : ℕ
deriving DecidableEq, Repr

/-- One `dailyStats` entry of the analytics fixture. -/
structure DailyStat where
  date : String
  questions : ℕ
  correct : ℕ
  timeSpent : ℕ
deriving DecidableEq, Repr

/-- The `SAMPLE_ANALYTICS` fixture object. -/
structure Analytics where
  success : Bool
  timeRange : String
  totalQuestions : ℕ
  correctAnswers : ℕ
  incorrectAnswers : ℕ
  averageConfidence : ℚ
  averageResponseTime : ℚ
  streakCurrent : ℕ
  streakLongest : ℕ
  difficultyBreakdown : List (String × Breakdown)
  typeBreakdown : List (QType × Breakdown)
  dailyStats : List DailyStat
deriving DecidableEq, Repr

def SAMPLE_ANALYTICS : Analytics :=
  { success := true
    timeRange := "30d"
    totalQuestions := 25
    correctAnswers := 18
    incorrectAnswers := 7
    averageConfidence := 3.2
    averageResponseTime := 12.5
    streakCurrent := 5
    streakLongest := 12
    difficultyBreakdown :=
      [("BEGINNER", ⟨10, 9, 1⟩), ("INTERMEDIATE", ⟨10, 7, 3⟩), ("ADVANCED", ⟨5, 2, 3⟩)]
    typeBreakdown :=
      [(.MULTIPLE_CHOICE, ⟨12, 10, 2⟩), (.TRUE_FALSE, ⟨8, 6, 2⟩),
       (.FILL_IN_BLANK, ⟨3, 1, 2⟩), (.SHORT_ANSWER, ⟨2, 1, 1⟩)]
    dailyStats :=
      [⟨"2025-05-17", 3, 2, 45⟩, ⟨"2025-05-18", 5, 4, 67⟩, ⟨"2025-05-19", 2, 2, 23⟩,
       ⟨"2025-05-20", 4, 3, 52⟩, ⟨"2025-05-21", 6, 4, 78⟩, ⟨"2025-05-22", 3, 2, 41⟩,
       ⟨"2025-05-23", 2, 1, 28⟩] }

/-- The state of a `MockActiveRecallAPI` instance: the fields the
constructor initialises from the fixture lists. -/
structure MockAPI where
  questions : List Question
  materials : List Material
  schedules : List Schedule
  analytics : Analytics
deriving DecidableEq, Repr

/-- `new MockActiveRecallAPI()`: copies of the fixture data.  `loadMs` is
the module-load clock used by the schedule fixtures. -/
def mkMockAPI (loadMs : ℤ) : MockAPI :=
  { questions := SAMPLE_QUESTIONS
    materials := SAMPLE_LEARNING_MATERIALS
    schedules := SAMPLE_USER_SCHEDULE loadMs
    analytics := SAMPLE_ANALYTICS }

/-- The request body of `submitQuestionResponse`. -/
structure Response where
  answer : String
  confidence : ℚ
  timeSpent : ℚ
deriving DecidableEq, Repr

/-- The success payload of `submitQuestionResponse`.  `nextReviewMs` is the
epoch-millisecond value of the returned `nextReviewDate` ISO string. -/
structure Feedback where
  isCorrect : Bool
  confidenceScore : ℚ
  explanation : String
  correctAnswer : String
  nextReviewMs : ℤ
  timeSpent : ℚ
  userAnswer : String
deriving DecidableEq, Repr

/-- Result of `generateQuestions`: `success: false` with an error string,
or `success: true` with the selected questions and the material. -/
inductive GenResult where
  | err (error : String)
  | ok (questions : List Question) (material : Material)
deriving DecidableEq, Repr

/-- Result of `getQuestion`. -/
inductive QResult where
  | err (error : String)
  | ok (question : Question)
deriving DecidableEq, Repr

/-- Result of `submitQuestionResponse`. -/
inductive SubmitResult where
  | err (error : String)
  | ok (feedback : Feedback)
deriving DecidableEq, Repr

/-- Result of `getActiveRecallSchedule` (this operation never fails). -/
inductive SchedResult where
  | ok (schedule : List Schedule)
deriving DecidableEq, Repr

/-- Result of `getLearningAnalytics` (this operation never fails). -/
inductive AnalyticsResult where
  | ok (analytics : Analytics)
deriving DecidableEq, Repr

/-- Options object of `generateQuestions`.  `none` models an absent
(`undefined`) field. -/
structure GenOptions where
  questionType : Option QType
  difficulty : Option String
  numQuestions : Option ℕ
deriving DecidableEq, Repr

/-- `options.numQuestions || 5`: JavaScript's `||` takes the default when
the field is absent or `0` (falsy). -/
def requestedCount (o : GenOptions) : ℕ :=
  match o.numQuestions with
  | none => 5
  | some n => if n = 0 then 5 else n

/-- The filter predicate applied to a material's questions in
`generateQuestions` (type and difficulty options). -/
def filterPred (o : GenOptions) (q : Question) : Bool :=
  (match o.questionType with
   | some t => q.type == t
   | none => true) &&
  (match o.difficulty with
   | some d => q.difficulty == d
   | none => true)

/-- `MockActiveRecallAPI.generateQuestions(materialId, options)`.  Every
operation returns its result together with the service state it leaves
behind; the method body contains no assignment to `this`, so the state
returned is the state received. -/
def generateQuestions (api : MockAPI) (materialId : String) (o : GenOptions) :
    GenResult × MockAPI :=
  match api.materials.find? (fun m => m.id == materialId) with
  | none => (.err "Material not found", api)
  | some material =>
    let materialQuestions := api.questions.filter (fun q => q.materialId == materialId)
    let filteredQuestions := materialQuestions.filter (filterPred o)
    let numQuestions := min (requestedCount o) filteredQuestions.length
    (.ok (filteredQuestions.take numQuestions) material, api)

/-- `MockActiveRecallAPI.getQuestion(questionId)`. -/
def getQuestion (api : MockAPI) (questionId : String) : QResult × MockAPI :=
  match api.questions.find? (fun q => q.id == questionId) with
  | none => (.err "Question not found", api)
  | some question => (.ok question, api)

/-- The comparison `matchCount >= keywords.length * 0.6` of the
SHORT_ANSWER branch. -/
def matchOk (matchCount kcount : ℕ) : Bool :=
  (kcount : ℚ) * (3 / 5) ≤ (matchCount : ℚ)

/-- The per-type correctness rule of `submitQuestionResponse`.  `ua` is the
already lowercased and trimmed user answer. -/
def evalIsCorrect (q : Question) (ua : String) : Bool :=
  let ca := normalizeAns q.correctAnswer
  match q.type with
  | .MULTIPLE_CHOICE => ua == ca
  | .TRUE_FALSE => ua == ca
  | .FILL_IN_BLANK => strIncludes ua ca || strIncludes ca ua
  | .SHORT_ANSWER =>
    let keywords := (splitSpaceStr ca).filter (fun word => word.length > 3)
    let userWords := splitSpaceStr ua
    let matchCount :=
      (keywords.filter (fun keyword =>
        userWords.any (fun word => strIncludes word keyword || strIncludes keyword word))).length
    matchOk matchCount keywords.length

/-- The confidence-score computation of `submitQuestionResponse`:
normalise to the 0-1 scale (`response.confidence / 5`), then adjust by
correctness: `Math.min(1, s + 0.1)` when correct, `Math.max(0, s - 0.2)`
when incorrect. -/
def evalScore (isCorrect : Bool) (confidence : ℚ) : ℚ :=
  let confidenceScore := confidence / 5
  if isCorrect then jsMin 1 (confidenceScore + 1/10) else jsMax 0 (confidenceScore - 1/5)

/-- `nextReviewDays`: `Math.round(baseInterval * confidenceMultiplier)`
with `baseInterval` 2 days when correct, 1 when incorrect, and
`confidenceMultiplier = confidenceScore * 2`. -/
def nextReviewDays (isCorrect : Bool) (confidenceScore : ℚ) : ℤ :=
  let baseInterval : ℚ := if isCorrect then 2 else 1
  let confidenceMultiplier := confidenceScore * 2
  jsRound (baseInterval * confidenceMultiplier)

/-- The success payload computed by `submitQuestionResponse` once the
question is found.  `nowMs` models `new Date()` at the call. -/
def submitCore (q : Question) (response : Response) (nowMs : ℤ) : Feedback :=
  let userAnswer := normalizeAns response.answer
  let isCorrect := evalIsCorrect q userAnswer
  let confidenceScore := evalScore isCorrect response.confidence
  { isCorrect := isCorrect
    confidenceScore := confidenceScore
    explanation := q.explanation
    correctAnswer := q.correctAnswer
    nextReviewMs := nowMs + nextReviewDays isCorrect confidenceScore * 86400000
    timeSpent := response.timeSpent
    userAnswer := response.answer }

/-- `MockActiveRecallAPI.submitQuestionResponse(questionId, response)`. -/
def submitQuestionResponse (api : MockAPI) (questionId : String)
    (response : Response) (nowMs : ℤ) : SubmitResult × MockAPI :=
  match api.questions.find? (fun q => q.id == questionId) with
  | none => (.err "Question not found", api)
  | some q => (.ok (submitCore q response nowMs), api)

/-- Options object of `getActiveRecallSchedule`; the optional target date
is modelled as an epoch-millisecond value. -/
structure SchedOptions where
  date : Option ℤ
deriving DecidableEq, Repr

/-- Model of the `toDateString()` equality test: two timestamps fall on the
same calendar day. -/
def sameDay (a b : ℤ) : Bool :=
  a / 86400000 == b / 86400000

/-- `MockActiveRecallAPI.getActiveRecallSchedule(userId, options)`. -/
def getActiveRecallSchedule (api : MockAPI) (userId : String) (o : SchedOptions) :
    SchedResult × MockAPI :=
  let userSchedules := api.schedules.filter (fun s => s.userId == userId)
  match o.date with
  | some targetDate =>
    (.ok (userSchedules.filter (fun schedule => sameDay schedule.nextReview targetDate)), api)
  | none => (.ok userSchedules, api)

/-- `MockActiveRecallAPI.getLearningAnalytics(userId, options)`. -/
def getLearningAnalytics (api : MockAPI) (_userId : String) :
    AnalyticsResult × MockAPI :=
  (.ok api.analytics, api)

/-- One call to the mock service (used to state the frame property over
arbitrary call sequences). -/
inductive Op where
  | genQ (materialId : String) (o : GenOptions)
  | getQ (questionId : String)
  | submitQ (questionId : String) (response : Response) (nowMs : ℤ)
  | getSched (userId : String) (o : SchedOptions)
  | getAnalytics (userId : String)
deriving DecidableEq, Repr

/-- The service state after one call. -/
def stepOp (api : MockAPI) : Op → MockAPI
  | .genQ materialId o => (generateQuestions api materialId o).2
  | .getQ questionId => (getQuestion api questionId).2
  | .submitQ questionId response nowMs => (submitQuestionResponse api questionId response nowMs).2
  | .getSched userId o => (getActiveRecallSchedule api userId o).2
  | .getAnalytics userId => (getLearningAnalytics api userId).2

/-- The service state after a sequence of calls. -/
def runOps (api : MockAPI) (ops : List Op) : MockAPI :=
  ops.foldl stepOp api

/-!  Definitions phrased from the specification's wording, used to state
the claims against the embedded service. -/

/-- The keyword set of a SHORT_ANSWER question: the space-separated words
of the trimmed lowercased correct answer that are longer than 3
characters. -/
def keywordsOf (q : Question) : List String :=
  (splitSpaceStr (normalizeAns q.correctAnswer)).filter (fun word => word.length > 3)

/-- Does some space-separated token of the user answer contain the keyword
as a substring, or occur as a substring of it? -/
def tokenMatch (userWords : List String) (keyword : String) : Bool :=
  userWords.any (fun word => strIncludes word keyword || strIncludes keyword word)

/-- How many keywords of the question's correct answer are matched by some
token of the user answer. -/
def matchCountOf (q : Question) (ans : String) : ℕ :=
  ((keywordsOf q).filter (tokenMatch (splitSpaceStr (normalizeAns ans)))).length

/-- Is the string the id of a fixture material? -/
def isMaterialId (s : String) : Bool :=
  SAMPLE_LEARNING_MATERIALS.any (fun m => m.id == s)

/-- Is the string the id of a fixture question? -/
def isQuestionId (s : String) : Bool :=
  SAMPLE_QUESTIONS.any (fun q => q.id == s)

/-- The fixture questions of a material that pass the requested type and
difficulty filters, in fixture order. -/
def matchingQuestions (materialId : String) (o : GenOptions) : List Question :=
  (SAMPLE_QUESTIONS.filter (fun q => q.materialId == materialId)).filter (filterPred o)

/-!  Helper lemmas. -/

theorem submitCore_isCorrect (q : Question) (r : Response) (nowMs : ℤ) :
    (submitCore q r nowMs).isCorrect = evalIsCorrect q (normalizeAns r.answer) := rfl

theorem submitCore_confidenceScore (q : Question) (r : Response) (nowMs : ℤ) :
    (submitCore q r nowMs).confidenceScore
      = evalScore (evalIsCorrect q (normalizeAns r.answer)) r.confidence := rfl

theorem submitCore_nextReviewMs (q : Question) (r : Response) (nowMs : ℤ) :
    (submitCore q r nowMs).nextReviewMs
      = nowMs + nextReviewDays (evalIsCorrect q (normalizeAns r.answer))
          (evalScore (evalIsCorrect q (normalizeAns r.answer)) r.confidence) * 86400000 := rfl

theorem jsMin_eq (a b : ℚ) : jsMin a b = min a b := by
  unfold jsMin
  split_ifs with h
  · exact (min_eq_left h).symm
  · exact (min_eq_right (le_of_lt (lt_of_not_le h))).symm

theorem jsMax_eq (a b : ℚ) : jsMax a b = max a b := by
  unfold jsMax
  split_ifs with h
  · exact (max_eq_right h).symm
  · exact (max_eq_left (le_of_lt (lt_of_not_le h))).symm


theorem find_question {q : Question} (hq : q ∈ SAMPLE_QUESTIONS) :
    SAMPLE_QUESTIONS.find? (fun p => p.id == q.id) = some q := by
  simp only [SAMPLE_QUESTIONS, List.mem_cons, List.not_mem_nil, or_false] at hq
  rcases hq with rfl | rfl | rfl | rfl | rfl | rfl <;> decide

theorem submit_found (api : MockAPI) (h : api.questions = SAMPLE_QUESTIONS)
    {q : Question} (hq : q ∈ SAMPLE_QUESTIONS) (r : Response) (nowMs : ℤ) :
    submitQuestionResponse api q.id r nowMs = (.ok (submitCore q r nowMs), api) := by
  unfold submitQuestionResponse
  rw [h, find_question hq]

theorem evalScore_bounds (b : Bool) (c : ℚ) (h1 : 1 ≤ c) (h5 : c ≤ 5) :
    0 ≤ evalScore b c ∧ evalScore b c ≤ 1 := by
  cases b <;> unfold evalScore jsMin jsMax <;> dsimp only <;>
    split_ifs with h <;> constructor <;> linarith

theorem days_cases (b : Bool) (n : ℕ) (h1 : 1 ≤ n) (h5 : n ≤ 5) :
    0 ≤ nextReviewDays b (evalScore b (n : ℚ)) ∧
      (1 ≤ nextReviewDays b (evalScore b (n : ℚ)) ↔ (b = true ∨ 3 ≤ n)) := by
  have hn : n = 1 ∨ n = 2 ∨ n = 3 ∨ n = 4 ∨ n = 5 := by omega
  rcases hn with rfl | rfl | rfl | rfl | rfl <;> cases b <;>
    simp only [Nat.cast_one, Nat.cast_ofNat] <;> decide

theorem matchOk_iff (m k : ℕ) : matchOk m k = true ↔ 3 * k ≤ 5 * m := by
  unfold matchOk
  rw [decide_eq_true_eq]
  have : ((k : ℚ) * (3 / 5) ≤ (m : ℚ)) ↔ ((3 * k : ℕ) : ℚ) ≤ ((5 * m : ℕ) : ℚ) := by
    push_cast
    constructor <;> intro hh <;> linarith
  rw [this, Nat.cast_le]

theorem generateQuestions_state (api : MockAPI) (materialId : String) (o : GenOptions) :
    (generateQuestions api materialId o).2 = api := by
  unfold generateQuestions
  split <;> rfl

theorem getQuestion_state (api : MockAPI) (questionId : String) :
    (getQuestion api questionId).2 = api := by
  unfold getQuestion
  split <;> rfl

theorem submitQuestionResponse_state (api : MockAPI) (questionId : String)
    (r : Response) (nowMs : ℤ) :
    (submitQuestionResponse api questionId r nowMs).2 = api := by
  unfold submitQuestionResponse
  split <;> rfl

theorem getActiveRecallSchedule_state (api : MockAPI) (userId : String) (o : SchedOptions) :
    (getActiveRecallSchedule api userId o).2 = api := by
  unfold getActiveRecallSchedule
  split <;> rfl

theorem getLearningAnalytics_state (api : MockAPI) (userId : String) :
    (getLearningAnalytics api userId).2 = api := rfl

theorem stepOp_fix (api : MockAPI) (op : Op) : stepOp api op = api := by
  cases op with
  | genQ materialId o => exact generateQuestions_state api materialId o
  | getQ questionId => exact getQuestion_state api questionId
  | submitQ questionId r nowMs => exact submitQuestionResponse_state api questionId r nowMs
  | getSched userId o => exact getActiveRecallSchedule_state api userId o
  | getAnalytics userId => exact getLearningAnalytics_state api userId

theorem runOps_fix (ops : List Op) (api : MockAPI) : runOps api ops = api := by
  induction ops generalizing api with
  | nil => rfl
  | cons op ops ih =>
    show runOps (stepOp api op) ops = api
    rw [stepOp_fix, ih]

/-!  The claims. -/

/-- Claim C1 (counterexample): for fixture question `q1`, a wrong answer
submitted with confidence 1 at time 0 succeeds but yields
`nextReviewDate` equal to the submission time — the rounded interval is 0
days — so the next-review timestamp is neither at least one day after the
submission time nor strictly in the future. -/
theorem submit_nextReview_at_now :
    (submitQuestionResponse (mkMockAPI 0) "q1" ⟨"zzz", 1, 10⟩ 0).1
      = .ok (submitCore q1 ⟨"zzz", 1, 10⟩ 0) ∧
    (submitCore q1 ⟨"zzz", 1, 10⟩ 0).nextReviewMs = 0 ∧
    ¬ (0 : ℤ) < (submitCore q1 ⟨"zzz", 1, 10⟩ 0).nextReviewMs := by
  refine ⟨by decide, by decide, by decide⟩

/-- Claim C1 (amended): for every fixture question and every confidence
`n` on the 1-5 scale, a successful `submitQuestionResponse` returns a
`nextReviewDate` that is at least the submission time, and it is at least
one day after the submission time exactly when the answer was judged
correct or the confidence is at least 3; for incorrect answers with
confidence 1 or 2 the rounded interval is 0 days and the next-review
timestamp equals the submission time. -/
theorem submit_nextReview_bounds (api : MockAPI) (h : api.questions = SAMPLE_QUESTIONS)
    (q : Question) (hq : q ∈ SAMPLE_QUESTIONS) (ans : String) (n : ℕ)
    (h1 : 1 ≤ n) (h5 : n ≤ 5) (t : ℚ) (now : ℤ) :
    ∃ fb : Feedback,
      submitQuestionResponse api q.id ⟨ans, (n : ℚ), t⟩ now = (.ok fb, api) ∧
      now ≤ fb.nextReviewMs ∧
      (now + 86400000 ≤ fb.nextReviewMs ↔ (fb.isCorrect = true ∨ 3 ≤ n)) := by
  refine ⟨submitCore q ⟨ans, (n : ℚ), t⟩ now, submit_found api h hq _ now, ?_, ?_⟩
  · rw [submitCore_nextReviewMs]
    dsimp only
    have hd := (days_cases (evalIsCorrect q (normalizeAns ans)) n h1 h5).1
    omega
  · rw [submitCore_isCorrect, submitCore_nextReviewMs]
    dsimp only
    have hd := (days_cases (evalIsCorrect q (normalizeAns ans)) n h1 h5).2
    rw [← hd]
    omega

/-- Witness for `submit_nextReview_bounds` at question `q1`, answer "x",
confidence 3, submission time 0. -/
theorem submit_nextReview_bounds_witness :
    ∃ fb : Feedback,
      submitQuestionResponse (mkMockAPI 0) "q1" ⟨"x", ((3 : ℕ) : ℚ), 1⟩ 0
        = (.ok fb, mkMockAPI 0) ∧
      (0 : ℤ) ≤ fb.nextReviewMs ∧
      ((0 : ℤ) + 86400000 ≤ fb.nextReviewMs ↔ (fb.isCorrect = true ∨ 3 ≤ 3)) :=
  submit_nextReview_bounds (mkMockAPI 0) rfl q1 (List.mem_cons_self _ _) "x" 3
    (by decide) (by decide) 1 0

/-- Claim C2 (counterexample): submitting the empty answer for the
FILL_IN_BLANK fixture question `q3` raises no error but is judged
correct, because the empty trimmed answer is a substring of the correct
answer. -/
theorem submit_blank_answer_correct_q3 :
    (submitQuestionResponse (mkMockAPI 0) "q3" ⟨"", 3, 0⟩ 0).1
      = .ok (submitCore q3 ⟨"", 3, 0⟩ 0) ∧
    (submitCore q3 ⟨"", 3, 0⟩ 0).isCorrect = true := by
  refine ⟨by decide, by decide⟩

/-- Claim C2 (amended): for every fixture question, submitting an answer
that is empty or consists only of whitespace raises no error; the
feedback has `isCorrect = false` for MULTIPLE_CHOICE and TRUE_FALSE
questions, but `isCorrect = true` for FILL_IN_BLANK and SHORT_ANSWER
questions (the empty trimmed answer is a substring of the correct answer
and of every keyword). -/
theorem submit_blank_answer (api : MockAPI) (h : api.questions = SAMPLE_QUESTIONS)
    (q : Question) (hq : q ∈ SAMPLE_QUESTIONS) (ans : String)
    (hans : normalizeAns ans = "") (c t : ℚ) (now : ℤ) :
    ∃ fb : Feedback,
      submitQuestionResponse api q.id ⟨ans, c, t⟩ now = (.ok fb, api) ∧
      fb.isCorrect = (q.type == QType.FILL_IN_BLANK || q.type == QType.SHORT_ANSWER) := by
  refine ⟨_, submit_found api h hq _ now, ?_⟩
  rw [submitCore_isCorrect]
  dsimp only
  rw [hans]
  simp only [SAMPLE_QUESTIONS, List.mem_cons, List.not_mem_nil, or_false] at hq
  rcases hq with rfl | rfl | rfl | rfl | rfl | rfl <;> decide

/-- Witness for `submit_blank_answer` at question `q1` with the
whitespace-only answer " ": the submission succeeds and is judged
incorrect. -/
theorem submit_blank_answer_witness :
    ∃ fb : Feedback,
      submitQuestionResponse (mkMockAPI 0) "q1" ⟨" ", 3, 0⟩ 0 = (.ok fb, mkMockAPI 0) ∧
      fb.isCorrect = false := by
  obtain ⟨fb, hfb, hic⟩ :=
    submit_blank_answer (mkMockAPI 0) rfl q1 (List.mem_cons_self _ _) " "
      (by decide) 3 0 0
  exact ⟨fb, hfb, by rw [hic]; decide⟩

/-- Claim C3 (counterexample): submitting confidence 10 (outside the 1-5
scale) with a wrong answer on `q1` yields `confidenceScore = 9/5`, which
is greater than 1, so the score is not clamped to the interval for
arbitrary submitted confidence values. -/
theorem confidenceScore_exceeds_one :
    (submitQuestionResponse (mkMockAPI 0) "q1" ⟨"zzz", 10, 0⟩ 0).1
      = .ok (submitCore q1 ⟨"zzz", 10, 0⟩ 0) ∧
    (submitCore q1 ⟨"zzz", 10, 0⟩ 0).confidenceScore = 9 / 5 ∧
    ¬ (submitCore q1 ⟨"zzz", 10, 0⟩ 0).confidenceScore ≤ 1 := by
  refine ⟨by decide, by decide, by decide⟩

/-- Claim C3 (amended): for every fixture question and every submitted
confidence on the documented 1-5 scale, the `confidenceScore` in the
feedback lies in the interval [0, 1]. -/
theorem confidenceScore_bounds_in_scale (api : MockAPI)
    (h : api.questions = SAMPLE_QUESTIONS) (q : Question) (hq : q ∈ SAMPLE_QUESTIONS)
    (ans : String) (c : ℚ) (hc1 : 1 ≤ c) (hc5 : c ≤ 5) (t : ℚ) (now : ℤ) :
    ∃ fb : Feedback,
      submitQuestionResponse api q.id ⟨ans, c, t⟩ now = (.ok fb, api) ∧
      0 ≤ fb.confidenceScore ∧ fb.confidenceScore ≤ 1 := by
  refine ⟨_, submit_found api h hq _ now, ?_, ?_⟩
  · rw [submitCore_confidenceScore]
    dsimp only
    exact (evalScore_bounds _ c hc1 hc5).1
  · rw [submitCore_confidenceScore]
    dsimp only
    exact (evalScore_bounds _ c hc1 hc5).2

/-- Witness for `confidenceScore_bounds_in_scale` at question `q2`,
answer "true", confidence 5. -/
theorem confidenceScore_bounds_witness :
    ∃ fb : Feedback,
      submitQuestionResponse (mkMockAPI 0) "q2" ⟨"true", 5, 2⟩ 0 = (.ok fb, mkMockAPI 0) ∧
      0 ≤ fb.confidenceScore ∧ fb.confidenceScore ≤ 1 :=
  confidenceScore_bounds_in_scale (mkMockAPI 0) rfl q2
    (List.mem_cons_of_mem _ (List.mem_cons_self _ _)) "true" 5
    (by decide) (by decide) 2 0

/-- Claim C4 (confirmed): for every confidence `n` on the 1-5 scale, the
feedback's `confidenceScore` equals `min 1 (n/5 + 0.1)` when the answer
was judged correct and `max 0 (n/5 - 0.2)` when it was judged incorrect,
and this value lies in [0, 1]. -/
theorem confidenceScore_formula (api : MockAPI) (h : api.questions = SAMPLE_QUESTIONS)
    (q : Question) (hq : q ∈ SAMPLE_QUESTIONS) (ans : String) (n : ℕ)
    (h1 : 1 ≤ n) (h5 : n ≤ 5) (t : ℚ) (now : ℤ) :
    ∃ fb : Feedback,
      submitQuestionResponse api q.id ⟨ans, (n : ℚ), t⟩ now = (.ok fb, api) ∧
      fb.confidenceScore =
        (if fb.isCorrect then min 1 ((n : ℚ) / 5 + 1 / 10) else max 0 ((n : ℚ) / 5 - 1 / 5)) ∧
      0 ≤ fb.confidenceScore ∧ fb.confidenceScore ≤ 1 := by
  have hcast1 : (1 : ℚ) ≤ (n : ℚ) := by exact_mod_cast h1
  have hcast5 : (n : ℚ) ≤ 5 := by exact_mod_cast h5
  refine ⟨_, submit_found api h hq _ now, ?_, ?_, ?_⟩
  · rw [submitCore_confidenceScore, submitCore_isCorrect]
    dsimp only
    cases hb : evalIsCorrect q (normalizeAns ans) <;>
      simp [evalScore, jsMin_eq, jsMax_eq]
  · rw [submitCore_confidenceScore]
    dsimp only
    exact (evalScore_bounds _ _ hcast1 hcast5).1
  · rw [submitCore_confidenceScore]
    dsimp only
    exact (evalScore_bounds _ _ hcast1 hcast5).2

/-- Witness for `confidenceScore_formula` at question `q1`, answer
"assembly-based", confidence 4. -/
theorem confidenceScore_formula_witness :
    ∃ fb : Feedback,
      submitQuestionResponse (mkMockAPI 0) "q1" ⟨"assembly-based", ((4 : ℕ) : ℚ), 0⟩ 0
        = (.ok fb, mkMockAPI 0) ∧
      fb.confidenceScore =
        (if fb.isCorrect then min 1 (((4 : ℕ) : ℚ) / 5 + 1 / 10)
         else max 0 (((4 : ℕ) : ℚ) / 5 - 1 / 5)) ∧
      0 ≤ fb.confidenceScore ∧ fb.confidenceScore ≤ 1 :=
  confidenceScore_formula (mkMockAPI 0) rfl q1 (List.mem_cons_self _ _)
    "assembly-based" 4 (by decide) (by decide) 0 0

/-- Claim C5 (confirmed): for every MULTIPLE_CHOICE or TRUE_FALSE fixture
question, the submission is judged correct exactly when the submitted
answer equals the question's correct answer after lowercasing and
trimming both strings. -/
theorem choice_true_false_exact_match (api : MockAPI)
    (h : api.questions = SAMPLE_QUESTIONS) (q : Question) (hq : q ∈ SAMPLE_QUESTIONS)
    (hty : q.type = QType.MULTIPLE_CHOICE ∨ q.type = QType.TRUE_FALSE)
    (ans : String) (c t : ℚ) (now : ℤ) :
    ∃ fb : Feedback,
      submitQuestionResponse api q.id ⟨ans, c, t⟩ now = (.ok fb, api) ∧
      (fb.isCorrect = true ↔ normalizeAns ans = normalizeAns q.correctAnswer) := by
  refine ⟨_, submit_found api h hq _ now, ?_⟩
  rw [submitCore_isCorrect]
  dsimp only
  rcases hty with hty | hty <;> simp [evalIsCorrect, hty]

/-- Witness for `choice_true_false_exact_match`: the MULTIPLE_CHOICE
question `q1` with correct answer "Assembly-based" judges the submission
"assembly-based" (different case) correct. -/
theorem choice_exact_match_witness :
    ∃ fb : Feedback,
      submitQuestionResponse (mkMockAPI 0) "q1" ⟨"assembly-based", 3, 5⟩ 0
        = (.ok fb, mkMockAPI 0) ∧
      fb.isCorrect = true := by
  obtain ⟨fb, hfb, hiff⟩ :=
    choice_true_false_exact_match (mkMockAPI 0) rfl q1 (List.mem_cons_self _ _)
      (Or.inl rfl) "assembly-based" 3 5 0
  exact ⟨fb, hfb, hiff.mpr (by decide)⟩

/-- Claim C6 (confirmed): for every FILL_IN_BLANK fixture question, the
submission is judged correct exactly when, after lowercasing and
trimming, the submitted answer contains the correct answer as a substring
or the correct answer contains the submitted answer as a substring. -/
theorem fill_blank_substring (api : MockAPI)
    (h : api.questions = SAMPLE_QUESTIONS) (q : Question) (hq : q ∈ SAMPLE_QUESTIONS)
    (hty : q.type = QType.FILL_IN_BLANK)
    (ans : String) (c t : ℚ) (now : ℤ) :
    ∃ fb : Feedback,
      submitQuestionResponse api q.id ⟨ans, c, t⟩ now = (.ok fb, api) ∧
      (fb.isCorrect = true ↔
        (strIncludes (normalizeAns ans) (normalizeAns q.correctAnswer) = true ∨
         strIncludes (normalizeAns q.correctAnswer) (normalizeAns ans) = true)) := by
  refine ⟨_, submit_found api h hq _ now, ?_⟩
  rw [submitCore_isCorrect]
  dsimp only
  simp [evalIsCorrect, hty]

/-- Witness for `fill_blank_substring`: question `q3` with the submission
"object", which is a substring of the correct answer "object-oriented",
is judged correct. -/
theorem fill_blank_substring_witness :
    ∃ fb : Feedback,
      submitQuestionResponse (mkMockAPI 0) "q3" ⟨"object", 3, 5⟩ 0
        = (.ok fb, mkMockAPI 0) ∧
      fb.isCorrect = true := by
  obtain ⟨fb, hfb, hiff⟩ :=
    fill_blank_substring (mkMockAPI 0) rfl q3
      (List.mem_cons_of_mem _ (List.mem_cons_of_mem _ (List.mem_cons_self _ _)))
      rfl "object" 3 5 0
  exact ⟨fb, hfb, hiff.mpr (Or.inr (by decide))⟩

/-- Claim C7 (confirmed): for every SHORT_ANSWER fixture question, with
`K` the keywords of the correct answer (words longer than 3 characters of
the trimmed lowercased correct answer), the submission is judged correct
exactly when the number of keywords matched by some token of the user
answer is at least 60 percent of `|K|` (stated integrally as
`3|K| ≤ 5·matches`); in particular the threshold comparison accepts 3
matches out of 5 keywords and rejects 2 out of 5. -/
theorem short_answer_keyword_threshold (api : MockAPI)
    (h : api.questions = SAMPLE_QUESTIONS) (q : Question) (hq : q ∈ SAMPLE_QUESTIONS)
    (hty : q.type = QType.SHORT_ANSWER)
    (ans : String) (c t : ℚ) (now : ℤ) :
    ∃ fb : Feedback,
      submitQuestionResponse api q.id ⟨ans, c, t⟩ now = (.ok fb, api) ∧
      (fb.isCorrect = true ↔ 3 * (keywordsOf q).length ≤ 5 * matchCountOf q ans) ∧
      (matchOk 3 5 = true ∧ matchOk 2 5 = false) := by
  refine ⟨_, submit_found api h hq _ now, ?_, by decide, by decide⟩
  rw [submitCore_isCorrect]
  dsimp only
  show evalIsCorrect q (normalizeAns ans) = true ↔ _
  unfold evalIsCorrect
  rw [hty]
  exact matchOk_iff (matchCountOf q ans) (keywordsOf q).length

/-- Witness for `short_answer_keyword_threshold` at the SHORT_ANSWER
question `q5` with submission "hooks". -/
theorem short_answer_threshold_witness :
    ∃ fb : Feedback,
      submitQuestionResponse (mkMockAPI 0) "q5" ⟨"hooks", 3, 5⟩ 0
        = (.ok fb, mkMockAPI 0) ∧
      (fb.isCorrect = true ↔ 3 * (keywordsOf q5).length ≤ 5 * matchCountOf q5 "hooks") ∧
      (matchOk 3 5 = true ∧ matchOk 2 5 = false) :=
  short_answer_keyword_threshold (mkMockAPI 0) rfl q5
    (List.mem_cons_of_mem _ (List.mem_cons_of_mem _ (List.mem_cons_of_mem _
      (List.mem_cons_of_mem _ (List.mem_cons_self _ _))))) rfl "hooks" 3 5 0

/-- Claim C8 (confirmed): for identifiers absent from the fixtures,
`generateQuestions` fails with exactly the error string "Material not
found" and `getQuestion` / `submitQuestionResponse` fail with exactly
"Question not found", carrying no payload; for identifiers present in the
fixtures, each operation succeeds. -/
theorem not_found_errors (api : MockAPI) (hqs : api.questions = SAMPLE_QUESTIONS)
    (hms : api.materials = SAMPLE_LEARNING_MATERIALS) (mid qid : String)
    (o : GenOptions) (r : Response) (now : ℤ) :
    (isMaterialId mid = false →
      generateQuestions api mid o = (.err "Material not found", api)) ∧
    (isMaterialId mid = true →
      ∃ qs m, generateQuestions api mid o = (.ok qs m, api)) ∧
    (isQuestionId qid = false →
      getQuestion api qid = (.err "Question not found", api) ∧
      submitQuestionResponse api qid r now = (.err "Question not found", api)) ∧
    (isQuestionId qid = true →
      (∃ qu, getQuestion api qid = (.ok qu, api)) ∧
      (∃ fb, submitQuestionResponse api qid r now = (.ok fb, api))) := by
  have hanyM : (api.materials.find? (fun m => m.id == mid) = none) ↔
      isMaterialId mid = false := by
    rw [hms]
    unfold isMaterialId
    rw [List.find?_eq_none, List.any_eq_false]
  have hanyQ : (api.questions.find? (fun q => q.id == qid) = none) ↔
      isQuestionId qid = false := by
    rw [hqs]
    unfold isQuestionId
    rw [List.find?_eq_none, List.any_eq_false]
  refine ⟨?_, ?_, ?_, ?_⟩
  · intro hmid
    unfold generateQuestions
    rw [hanyM.mpr hmid]
  · intro hmid
    cases hfind : api.materials.find? (fun m => m.id == mid) with
    | none =>
      rw [hanyM.mp hfind] at hmid
      exact absurd hmid (by simp)
    | some m =>
      unfold generateQuestions
      rw [hfind]
      exact ⟨_, m, rfl⟩
  · intro hqid
    constructor
    · unfold getQuestion
      rw [hanyQ.mpr hqid]
    · unfold submitQuestionResponse
      rw [hanyQ.mpr hqid]
  · intro hqid
    cases hfind : api.questions.find? (fun q => q.id == qid) with
    | none =>
      rw [hanyQ.mp hfind] at hqid
      exact absurd hqid (by simp)
    | some qu =>
      constructor
      · refine ⟨qu, ?_⟩
        unfold getQuestion
        rw [hfind]
      · refine ⟨submitCore qu r now, ?_⟩
        unfold submitQuestionResponse
        rw [hfind]

/-- Witness for `not_found_errors` with the unknown identifiers "nope" /
"q0". -/
theorem not_found_errors_witness :
    (isMaterialId "nope" = false →
      generateQuestions (mkMockAPI 0) "nope" ⟨none, none, none⟩
        = (.err "Material not found", mkMockAPI 0)) ∧
    (isMaterialId "nope" = true →
      ∃ qs m, generateQuestions (mkMockAPI 0) "nope" ⟨none, none, none⟩
        = (.ok qs m, mkMockAPI 0)) ∧
    (isQuestionId "q0" = false →
      getQuestion (mkMockAPI 0) "q0" = (.err "Question not found", mkMockAPI 0) ∧
      submitQuestionResponse (mkMockAPI 0) "q0" ⟨"x", 3, 0⟩ 0
        = (.err "Question not found", mkMockAPI 0)) ∧
    (isQuestionId "q0" = true →
      (∃ qu, getQuestion (mkMockAPI 0) "q0" = (.ok qu, mkMockAPI 0)) ∧
      (∃ fb, submitQuestionResponse (mkMockAPI 0) "q0" ⟨"x", 3, 0⟩ 0
        = (.ok fb, mkMockAPI 0))) :=
  not_found_errors (mkMockAPI 0) rfl rfl "nope" "q0" ⟨none, none, none⟩ ⟨"x", 3, 0⟩ 0

/-- Claim C9 (counterexample): requesting 0 questions for `material_1`
returns the first 5-capped matching questions (here all 3), not
`min 0 m = 0` of them: `options.numQuestions = 0` is falsy in JavaScript,
so the default count 5 is used. -/
theorem generate_zero_count_default :
    (generateQuestions (mkMockAPI 0) "material_1" ⟨none, none, some 0⟩).1
      = .ok [q1, q2, q3] material1 ∧
    ([q1, q2, q3] : List Question).length ≠ min 0 ([q1, q2, q3] : List Question).length := by
  refine ⟨by decide, by decide⟩

/-- `l.take (min n l.length)` is just `l.take n`. -/
theorem take_min_length {α : Type} (l : List α) (n : ℕ) :
    l.take (min n l.length) = l.take n := by
  rcases le_total n l.length with hl | hl
  · rw [min_eq_left hl]
  · rw [min_eq_right hl, List.take_length, List.take_of_length_le hl]

/-- Claim C9 (amended): for every known material identifier and every
requested question count `n ≥ 1`, `generateQuestions` returns exactly the
first `min(n, m)` fixture questions of that material that pass the type
and difficulty filters, in fixture order (`m` the number of matching
questions); for a requested count of 0 the option is falsy and the
default count 5 is used instead. -/
theorem generate_take_matching (api : MockAPI) (hqs : api.questions = SAMPLE_QUESTIONS)
    (hms : api.materials = SAMPLE_LEARNING_MATERIALS) (mid : String)
    (hmid : isMaterialId mid = true) (o : GenOptions) (n : ℕ)
    (hn : o.numQuestions = some n) (h1 : 1 ≤ n) :
    ∃ m, generateQuestions api mid o = (.ok ((matchingQuestions mid o).take n) m, api) ∧
      ((matchingQuestions mid o).take n).length = min n (matchingQuestions mid o).length := by
  have hreq : requestedCount o = n := by
    unfold requestedCount
    rw [hn]
    exact if_neg (by omega)
  cases hfind : api.materials.find? (fun m => m.id == mid) with
  | none =>
    have : isMaterialId mid = false := by
      rw [hms] at hfind
      unfold isMaterialId
      rw [List.any_eq_false]
      intro x hx
      exact (List.find?_eq_none.mp hfind) x hx
    rw [this] at hmid
    exact absurd hmid (by simp)
  | some m =>
    refine ⟨m, ?_, by rw [List.length_take]⟩
    unfold generateQuestions
    rw [hfind, hqs, hreq]
    show (GenResult.ok ((matchingQuestions mid o).take
      (min n (matchingQuestions mid o).length)) m, api) = _
    rw [take_min_length]

/-- Witness for `generate_take_matching` at `material_1` with requested
count 2 and no filters. -/
theorem generate_take_matching_witness :
    ∃ m, generateQuestions (mkMockAPI 0) "material_1" ⟨none, none, some 2⟩
        = (.ok ((matchingQuestions "material_1" ⟨none, none, some 2⟩).take 2) m, mkMockAPI 0) ∧
      ((matchingQuestions "material_1" ⟨none, none, some 2⟩).take 2).length
        = min 2 (matchingQuestions "material_1" ⟨none, none, some 2⟩).length :=
  generate_take_matching (mkMockAPI 0) rfl rfl "material_1" (by decide)
    ⟨none, none, some 2⟩ 2 rfl (by decide)

/-- Claim C10 (confirmed): no sequence of mock-service calls changes the
stored fixture data: after any list of operations the service's
questions, materials, schedules and analytics fields still equal the
fixture values the constructor installed. -/
theorem service_state_immutable (loadMs : ℤ) (ops : List Op) :
    (runOps (mkMockAPI loadMs) ops).questions = SAMPLE_QUESTIONS ∧
    (runOps (mkMockAPI loadMs) ops).materials = SAMPLE_LEARNING_MATERIALS ∧
    (runOps (mkMockAPI loadMs) ops).schedules = SAMPLE_USER_SCHEDULE loadMs ∧
    (runOps (mkMockAPI loadMs) ops).analytics = SAMPLE_ANALYTICS := by
  rw [runOps_fix]
  exact ⟨rfl, rfl, rfl, rfl⟩

/-- Witness for `service_state_immutable` after a concrete call
sequence. -/
theorem service_state_immutable_witness :
    (runOps (mkMockAPI 0) [Op.getQ "q1", Op.genQ "material_1" ⟨none, none, none⟩,
        Op.submitQ "q1" ⟨"x", 3, 0⟩ 0]).questions = SAMPLE_QUESTIONS ∧
    (runOps (mkMockAPI 0) [Op.getQ "q1", Op.genQ "material_1" ⟨none, none, none⟩,
        Op.submitQ "q1" ⟨"x", 3, 0⟩ 0]).materials = SAMPLE_LEARNING_MATERIALS ∧
    (runOps (mkMockAPI 0) [Op.getQ "q1", Op.genQ "material_1" ⟨none, none, none⟩,
        Op.submitQ "q1" ⟨"x", 3, 0⟩ 0]).schedules = SAMPLE_USER_SCHEDULE 0 ∧
    (runOps (mkMockAPI 0) [Op.getQ "q1", Op.genQ "material_1" ⟨none, none, none⟩,
        Op.submitQ "q1" ⟨"x", 3, 0⟩ 0]).analytics = SAMPLE_ANALYTICS :=
  service_state_immutable 0 [Op.getQ "q1", Op.genQ "material_1" ⟨none, none, none⟩,
    Op.submitQ "q1" ⟨"x", 3, 0⟩ 0]

end RecallGPT
